import Mathlib

/-!
Verification of the tape-delay processing core (`src/lib.rs`).

The Rust source is shallowly embedded: `f32` samples become exact
rationals where the code only uses field operations and comparisons, and
real numbers where the code calls transcendental primitives (`tanh`,
`sin`, `exp`, `powf`, `sqrt`).  `u32` seeds become naturals reduced
modulo `2^32`.  Mutable state is threaded explicitly.
-/

namespace TapeDelay

/-- The constant `u32::MAX` as a natural number. -/
def U32_MAX : ℕ := 4294967295

/-- One step of the linear-congruential generator used by `get_noise` and
`get_crackle`: `seed.wrapping_mul(1664525).wrapping_add(1013904223)`. -/
def lcg (seed : ℕ) : ℕ := (seed * 1664525 + 1013904223) % 4294967296

/-- The mapping `*seed as f32 / u32::MAX as f32`: the seed sent into `[0, 1]`. -/
def uniform01 (seed : ℕ) : ℚ := (seed : ℚ) / (U32_MAX : ℚ)

/-- Function `get_noise` in `lib.rs`: advance the LCG once and map the new seed to
`[-1, 1]`.  Returns the noise value and the new seed. -/
def get_noise (seed : ℕ) : ℚ × ℕ :=
  let s := lcg seed
  (uniform01 s * 2 - 1, s)

/-- Function `get_crackle` in `lib.rs`: one draw for magnitude gating; if the
mapped uniform exceeds `threshold`, a second draw whose top bit picks the
polarity of a `±0.2` pop.  Returns the impulse and the new seed. -/
def get_crackle (seed : ℕ) (threshold : ℚ) : ℚ × ℕ :=
  let s1 := lcg seed
  if uniform01 s1 > threshold then
    let s2 := lcg s1
    -- `(*seed & 0x80000000) != 0`: top bit of a value `< 2^32`
    if 2147483648 ≤ s2 then (0.2, s2) else (-0.2, s2)
  else (0, s1)

/-- The fixed 18-entry tempo-sync table from `get_beat_info`
(beat-multiplier, label). -/
def syncTable {α : Type} [DivisionRing α] : List (α × String) :=
  [(0.0625, "1/64"), (0.125, "1/32"), (0.1667, "1/16 T"), (0.1875, "1/32 ."),
   (0.25, "1/16"), (0.3333, "1/8 T"), (0.375, "1/16 ."), (0.5, "1/8"),
   (0.6667, "1/4 T"), (0.75, "1/8 ."), (1.0, "1/4"), (1.3333, "1/2 T"),
   (1.5, "1/4 ."), (2.0, "1/2"), (2.6667, "1/1 T"), (3.0, "1/2 ."),
   (4.0, "1 Bar"), (8.0, "2 Bar")]

/-- Function `normalized_to_sync_step` in `lib.rs`: multiply by `NUM_SYNC_STEPS
= 18`, floor, and clamp to `[0, 17]` (Rust `i32::clamp`). -/
def normalized_to_sync_step {α : Type} [LinearOrderedField α] [FloorRing α]
    (normalized : α) : ℤ :=
  min (max (⌊normalized * 18⌋) 0) 17

/-- Function `get_beat_info` in `lib.rs`: look the clamped step index up in the
18-entry table; the unreachable `_` match arm yields `(1.0, "1/4")`. -/
def get_beat_info {α : Type} [LinearOrderedField α] [FloorRing α]
    (normalized : α) : α × String :=
  syncTable.getD (normalized_to_sync_step normalized).toNat (1.0, "1/4")

/-- The index `index_a = (read_pos.floor() as usize) % len` used by
`linear_interpolate` (the `as usize` cast saturates negatives to 0). -/
def interp_index_a {α : Type} [LinearOrderedField α] [FloorRing α]
    (buffer : List α) (read_pos : α) : ℕ :=
  (⌊read_pos⌋).toNat % buffer.length

/-- The index `index_b = (index_a + 1) % len` used by `linear_interpolate`. -/
def interp_index_b {α : Type} [LinearOrderedField α] [FloorRing α]
    (buffer : List α) (read_pos : α) : ℕ :=
  (interp_index_a buffer read_pos + 1) % buffer.length

/-- Function `linear_interpolate` in `lib.rs`: length 0 yields `0.0`, length 1
yields `buffer[0]`, otherwise a linear blend of the two slots at
`interp_index_a` / `interp_index_b` weighted by the fractional part of
`read_pos`; `buffer.get(i).unwrap_or(&0.0)` becomes `List.getD _ i 0`. -/
def linear_interpolate {α : Type} [LinearOrderedField α] [FloorRing α]
    (buffer : List α) (read_pos : α) : α :=
  if buffer.length = 0 then 0
  else if buffer.length = 1 then buffer.getD 0 0
  else
    let fraction := read_pos - ⌊read_pos⌋
    let sample_a := buffer.getD (interp_index_a buffer read_pos) 0
    let sample_b := buffer.getD (interp_index_b buffer read_pos) 0
    sample_a * (1 - fraction) + sample_b * fraction

/-- Function `update_peak_meters` in `lib.rs`, one channel pair: skip entirely when
the editor is closed; otherwise instant attack on a larger block maximum,
multiplicative decay `decay ^ blockSamples` otherwise, snapping results
below `0.001` to exactly `0`. -/
def update_peak_meters {α : Type} [LinearOrderedField α]
    (editor_open : Bool) (buffer_samples : ℕ) (meter_decay_per_sample : α)
    (peak_l peak_r max_amplitude_l max_amplitude_r : α) : α × α :=
  if editor_open = false then (peak_l, peak_r)
  else
    let block_decay := meter_decay_per_sample ^ buffer_samples
    let new_peak_l0 :=
      if max_amplitude_l > peak_l then max_amplitude_l else peak_l * block_decay
    let new_peak_l := if new_peak_l0 < 0.001 then 0 else new_peak_l0
    let new_peak_r0 :=
      if max_amplitude_r > peak_r then max_amplitude_r else peak_r * block_decay
    let new_peak_r := if new_peak_r0 < 0.001 then 0 else new_peak_r0
    (new_peak_l, new_peak_r)

/-- The peak update rule as the specification words it: store the block
maximum whenever it exceeds the stored peak, otherwise decay by
`decayPerSample ^ blockSampleCount`, snapping below `0.001` to exactly 0. -/
def peak_update_spec {α : Type} [LinearOrderedField α]
    (stored block_max decay : α) (block_samples : ℕ) : α :=
  if block_max > stored then (if block_max < 0.001 then 0 else block_max)
  else
    let decayed := stored * decay ^ block_samples
    if decayed < 0.001 then 0 else decayed

/-! ## Real-valued signal path -/

/-- Function `one_pole_lp` in `lib.rs`: `*state += cutoff * (input - *state);
*state`.  Returns the new filter state, which is also the output. -/
def one_pole_lp (input state cutoff : ℝ) : ℝ :=
  state + cutoff * (input - state)

/-- Function `soft_clip` in `lib.rs`: `(sample * drive).tanh()`. -/
noncomputable def soft_clip (sample drive : ℝ) : ℝ :=
  Real.tanh (sample * drive)

/-- Function `calculate_gain_compensation` in `lib.rs`: makeup gain
`1 / gain_amt.powf(0.60)`, compensation factor `gain_amt * makeup_gain`,
noise/crackle base amounts divided by it and scaled by the user volumes.
Returns `(makeup_gain, final_noise_amt, final_crackle_amt)`. -/
noncomputable def calculate_gain_compensation
    (gain_amt noise_amount crackle_amount noise_volume crackle_volume : ℝ) :
    ℝ × ℝ × ℝ :=
  let makeup_gain := 1 / gain_amt ^ (0.60 : ℝ)
  let compensation_factor := gain_amt * makeup_gain
  (makeup_gain,
   noise_amount / compensation_factor * noise_volume,
   crackle_amount / compensation_factor * crackle_volume)

/-- The per-block constants of `calculate_tape_constants` in `lib.rs`.
Quantities the code only ever combines rationally are kept in `ℚ`. -/
structure TapeConstants where
  flutter_rate : ℝ
  noise_amount : ℚ
  crackle_amount : ℚ
  current_tone_cutoff : ℚ
  crackle_threshold : ℚ

/-- Function `calculate_tape_constants` in `lib.rs`. -/
noncomputable def calculate_tape_constants (sample_rate : ℚ) (is_broken : Bool) :
    TapeConstants where
  flutter_rate := 2 * Real.pi * (1.5 / (sample_rate : ℝ))
  noise_amount := 0.005
  crackle_amount := 0.15
  current_tone_cutoff := if is_broken then 0.45 else 0.85
  crackle_threshold := 1 - 3.0 / sample_rate

/-- Function `update_lfo_phase` in `lib.rs`: add the flutter rate, wrap by
subtracting `2π` once the phase exceeds it. -/
noncomputable def update_lfo_phase (lfo_phase flutter_rate : ℝ) : ℝ :=
  let p := lfo_phase + flutter_rate
  if p > 2 * Real.pi then p - 2 * Real.pi else p

/-- Result of `update_dropout_smoother`: the returned volume modifier and
the new smoother / timer / seed state. -/
structure DropoutOut where
  vol_mod : ℝ
  smoother : ℝ
  timer : ℚ
  seed : ℕ

/-- Function `update_dropout_smoother` in `lib.rs`.  When broken-tape is off the
health is pinned to 1 and the timer to 0; otherwise a noise draw may
start a micro-dropout timer, the target health is 0.3 while the timer
runs, and the smoother slews toward it with a 40× faster attack. -/
noncomputable def update_dropout_smoother (is_broken : Bool)
    (dropout_smoother : ℝ) (dropout_timer : ℚ) (rng_seed : ℕ)
    (sample_rate : ℚ) : DropoutOut :=
  if is_broken then
    let draw := get_noise rng_seed
    let rand_val : ℚ := |draw.1|
    let timer1 :=
      if rand_val > 0.99995 ∧ dropout_timer ≤ 0 then
        (0.005 + rand_val * 0.015) * sample_rate
      else dropout_timer
    let target_health : ℝ := if timer1 > 0 then 0.3 else 1.0
    let timer2 := if timer1 > 0 then timer1 - 1 else timer1
    let recovery_speed := 1 - Real.exp (-1 / (0.030 * (sample_rate : ℝ)))
    let coeff :=
      if target_health < dropout_smoother then recovery_speed * 40.0
      else recovery_speed
    let sm1 := dropout_smoother + (target_health - dropout_smoother) * coeff
    let sm2 := min (max sm1 0) 1
    ⟨sm2, sm2, timer2, draw.2⟩
  else ⟨1.0, 1.0, 0, rng_seed⟩

/-- Result of `generate_tape_noise_and_crackle`: the two texture samples
and the new seed / crackle-shaper state. -/
structure GenOut where
  noise : ℝ
  crackle : ℝ
  seed : ℕ
  integrator : ℚ
  hp : ℚ

/-- Function `generate_tape_noise_and_crackle` in `lib.rs`: one noise draw, one
crackle draw (or two if triggered), leaky integrator `×0.99`, one-pole
DC-blocking high pass with `hp_coeff = 0.9`, volumes applied. -/
noncomputable def generate_tape_noise_and_crackle (rng_seed : ℕ)
    (crackle_integrator crackle_hp crackle_threshold : ℚ)
    (compensated_noise_amt compensated_crackle_amt : ℝ) : GenOut :=
  let nd := get_noise rng_seed
  let noise := (nd.1 : ℝ) * compensated_noise_amt
  let cd := get_crackle nd.2 crackle_threshold
  let integrator1 := (crackle_integrator + cd.1) * 0.99
  let hp_out := integrator1 - crackle_hp
  let hp1 := integrator1 * (1 - 0.9) + crackle_hp * 0.9
  ⟨noise, (hp_out : ℝ) * compensated_crackle_amt, cd.2, integrator1, hp1⟩

/-- Result of one channel of `process_direct_distortion_channel`. -/
structure DirectOut where
  out : ℝ
  lp : ℝ
  seed : ℕ
  integrator : ℚ
  hp : ℚ

/-- Function `process_direct_distortion_channel` in `lib.rs`: add noise and
crackle to the input, scale by dropout health, soft-clip by gain,
tone-filter, multiply by the makeup gain. -/
noncomputable def process_direct_distortion_channel (input lp_state : ℝ)
    (rng_seed : ℕ) (crackle_integrator crackle_hp : ℚ)
    (tone_cutoff : ℝ) (crackle_threshold : ℚ)
    (compensated_noise_amt compensated_crackle_amt vol_mod gain_amt
      makeup_gain : ℝ) : DirectOut :=
  let g := generate_tape_noise_and_crackle rng_seed crackle_integrator
    crackle_hp crackle_threshold compensated_noise_amt compensated_crackle_amt
  let signal := (input + g.noise + g.crackle) * vol_mod
  let clipped := soft_clip signal gain_amt
  let filtered_output := one_pole_lp clipped lp_state tone_cutoff
  ⟨filtered_output * makeup_gain, filtered_output, g.seed, g.integrator, g.hp⟩

/-- Result of one channel of `process_delay_channel`: the value recorded
into the delay buffer, the output sample, and the new state. -/
structure DelayChanOut where
  record : ℝ
  out : ℝ
  lp : ℝ
  seed : ℕ
  integrator : ℚ
  hp : ℚ

/-- Function `process_delay_channel` in `lib.rs`: tone-filter the raw delayed tap,
sum input + filtered-feedback×feedbackGain + noise + crackle, scale by
dropout health, soft-clip by gain (the recorded value); the output is
`dry×(1−mix) + (raw delayed × makeup gain)×mix`. -/
noncomputable def process_delay_channel (input raw_delayed lp_state : ℝ)
    (rng_seed : ℕ) (crackle_integrator crackle_hp : ℚ)
    (tone_cutoff : ℝ) (crackle_threshold : ℚ)
    (compensated_noise_amt compensated_crackle_amt feedback_gain vol_mod
      gain_amt makeup_gain mix_amt : ℝ) : DelayChanOut :=
  let g := generate_tape_noise_and_crackle rng_seed crackle_integrator
    crackle_hp crackle_threshold compensated_noise_amt compensated_crackle_amt
  let filtered_feedback := one_pole_lp raw_delayed lp_state tone_cutoff
  let signal_to_record :=
    soft_clip ((input + filtered_feedback * feedback_gain + g.noise + g.crackle)
      * vol_mod) gain_amt
  let wet_signal := raw_delayed * makeup_gain
  let output := input * (1 - mix_amt) + wet_signal * mix_amt
  ⟨signal_to_record, output, filtered_feedback, g.seed, g.integrator, g.hp⟩

/-! ## Engine state and the per-block `process` function -/

/-- The persistent DSP state of the `TapeDelay` struct in `lib.rs`
(parameter objects excluded: their smoothed values enter as inputs). -/
structure DspState where
  delay_buffer_l : List ℝ
  delay_buffer_r : List ℝ
  write_pos : ℕ
  current_delay_samples : ℝ
  lfo_phase : ℝ
  lp_state_l : ℝ
  lp_state_r : ℝ
  rng_seed : ℕ
  dropout_smoother : ℝ
  dropout_timer : ℚ
  meter_decay_per_sample : ℝ
  peak_meter_l : ℝ
  peak_meter_r : ℝ
  crackle_integrator_l : ℚ
  crackle_integrator_r : ℚ
  crackle_hp_l : ℚ
  crackle_hp_r : ℚ
  was_distortion_mode : Bool

/-- Per-sample inputs to the loop: the stereo frame and the values the
smoothed parameters yield at that sample (`.smoothed.next()`). -/
structure SampleIn where
  in_l : ℝ
  in_r : ℝ
  gain : ℝ
  noiseP : ℝ
  crackleP : ℝ
  mix : ℝ
  feedback : ℝ

/-- Per-block inputs: the block-level parameter reads of `process`. -/
structure BlockCfg where
  sample_rate : ℚ
  stereo_width : ℝ
  bpm : Option ℝ
  delay_time_ms : ℝ
  time_sync : Bool
  is_broken : Bool
  is_distortion : Bool
  editor_open : Bool

/-- Rust `f32::rem_euclid` for a positive modulus: `x - y * ⌊x / y⌋`. -/
noncomputable def remEuclid (x y : ℝ) : ℝ := x - y * ⌊x / y⌋

/-- One sample of the distortion-only branch of `process` in `lib.rs`:
LFO advance, gain compensation, dropout health, then the left and the
right channel through `process_direct_distortion_channel`, threading the
single PRNG stream left before right.  Returns the new state and the two
output samples. -/
noncomputable def distortion_sample_step (c : BlockCfg) (tc : TapeConstants)
    (st : DspState) (inp : SampleIn) : DspState × ℝ × ℝ :=
  let lfo := update_lfo_phase st.lfo_phase tc.flutter_rate
  let comp := calculate_gain_compensation inp.gain (tc.noise_amount : ℝ)
    (tc.crackle_amount : ℝ) inp.noiseP inp.crackleP
  let dr := update_dropout_smoother c.is_broken st.dropout_smoother
    st.dropout_timer st.rng_seed c.sample_rate
  let chl := process_direct_distortion_channel inp.in_l st.lp_state_l dr.seed
    st.crackle_integrator_l st.crackle_hp_l (tc.current_tone_cutoff : ℝ)
    tc.crackle_threshold comp.2.1 comp.2.2 dr.vol_mod inp.gain comp.1
  let chr := process_direct_distortion_channel inp.in_r st.lp_state_r chl.seed
    st.crackle_integrator_r st.crackle_hp_r (tc.current_tone_cutoff : ℝ)
    tc.crackle_threshold comp.2.1 comp.2.2 dr.vol_mod inp.gain comp.1
  ({ st with
      lfo_phase := lfo
      lp_state_l := chl.lp
      lp_state_r := chr.lp
      rng_seed := chr.seed
      dropout_smoother := dr.smoother
      dropout_timer := dr.timer
      crackle_integrator_l := chl.integrator
      crackle_integrator_r := chr.integrator
      crackle_hp_l := chl.hp
      crackle_hp_r := chr.hp },
   chl.out, chr.out)

/-- The distortion-branch sample loop of `process`, threading the running
block maxima of the two channels. -/
noncomputable def distortion_loop (c : BlockCfg) (tc : TapeConstants)
    (st : DspState) (max_l max_r : ℝ) :
    List SampleIn → DspState × List (ℝ × ℝ) × ℝ × ℝ
  | [] => (st, [], max_l, max_r)
  | inp :: rest =>
    let stp := distortion_sample_step c tc st inp
    let ml := if |stp.2.1| > max_l then |stp.2.1| else max_l
    let mr := if |stp.2.2| > max_r then |stp.2.2| else max_r
    let tail := distortion_loop c tc stp.1 ml mr rest
    (tail.1, (stp.2.1, stp.2.2) :: tail.2.1, tail.2.2)

/-- One sample of the delay branch of `process` in `lib.rs`: LFO advance
and stereo wobble, slewed delay length, Haas skew, gain compensation and
feedback gain, dropout health, tone spread, the two modulo-wrapped read
positions, then left and right channel through `process_delay_channel`
with the recorded values written at the shared write cursor, which then
advances by one. -/
noncomputable def delay_sample_step (c : BlockCfg) (tc : TapeConstants)
    (target_delay_samples : ℝ) (st : DspState) (inp : SampleIn) :
    DspState × ℝ × ℝ :=
  let buffer_len := st.delay_buffer_l.length
  let lfo := update_lfo_phase st.lfo_phase tc.flutter_rate
  let phase_offset_r := c.stereo_width * Real.pi
  let flutter_offset_l := Real.sin lfo * 15.0
  let flutter_offset_r := Real.sin (lfo + phase_offset_r) * 15.0
  let cds := st.current_delay_samples * (1 - 0.0005)
    + target_delay_samples * 0.0005
  let spread_samples := c.stereo_width * 0.010 * (c.sample_rate : ℝ)
  let mod_delay_samples_l := max (cds - spread_samples + flutter_offset_l) 0
  let mod_delay_samples_r := max (cds + spread_samples + flutter_offset_r) 0
  let feedback_gain := inp.feedback * 1.2 / Real.sqrt inp.gain
  let comp := calculate_gain_compensation inp.gain (tc.noise_amount : ℝ)
    (tc.crackle_amount : ℝ) inp.noiseP inp.crackleP
  let dr := update_dropout_smoother c.is_broken st.dropout_smoother
    st.dropout_timer st.rng_seed c.sample_rate
  let tone_spread := c.stereo_width * 0.15
  let cutoff_l := max ((tc.current_tone_cutoff : ℝ) - tone_spread) 0.1
  let cutoff_r := min ((tc.current_tone_cutoff : ℝ) + tone_spread) 0.95
  let read_pos_l :=
    remEuclid ((st.write_pos : ℝ) - mod_delay_samples_l) (buffer_len : ℝ)
  let read_pos_r :=
    remEuclid ((st.write_pos : ℝ) - mod_delay_samples_r) (buffer_len : ℝ)
  let raw_delayed_l := linear_interpolate st.delay_buffer_l read_pos_l
  let chl := process_delay_channel inp.in_l raw_delayed_l st.lp_state_l dr.seed
    st.crackle_integrator_l st.crackle_hp_l cutoff_l tc.crackle_threshold
    comp.2.1 comp.2.2 feedback_gain dr.vol_mod inp.gain comp.1 inp.mix
  let raw_delayed_r := linear_interpolate st.delay_buffer_r read_pos_r
  let chr := process_delay_channel inp.in_r raw_delayed_r st.lp_state_r chl.seed
    st.crackle_integrator_r st.crackle_hp_r cutoff_r tc.crackle_threshold
    comp.2.1 comp.2.2 feedback_gain dr.vol_mod inp.gain comp.1 inp.mix
  ({ st with
      delay_buffer_l := st.delay_buffer_l.set st.write_pos chl.record
      delay_buffer_r := st.delay_buffer_r.set st.write_pos chr.record
      write_pos := (st.write_pos + 1) % buffer_len
      current_delay_samples := cds
      lfo_phase := lfo
      lp_state_l := chl.lp
      lp_state_r := chr.lp
      rng_seed := chr.seed
      dropout_smoother := dr.smoother
      dropout_timer := dr.timer
      crackle_integrator_l := chl.integrator
      crackle_integrator_r := chr.integrator
      crackle_hp_l := chl.hp
      crackle_hp_r := chr.hp },
   chl.out, chr.out)

/-- The delay-branch sample loop of `process`, threading the block maxima. -/
noncomputable def delay_loop (c : BlockCfg) (tc : TapeConstants)
    (target_delay_samples : ℝ) (st : DspState) (max_l max_r : ℝ) :
    List SampleIn → DspState × List (ℝ × ℝ) × ℝ × ℝ
  | [] => (st, [], max_l, max_r)
  | inp :: rest =>
    let stp := delay_sample_step c tc target_delay_samples st inp
    let ml := if |stp.2.1| > max_l then |stp.2.1| else max_l
    let mr := if |stp.2.2| > max_r then |stp.2.2| else max_r
    let tail := delay_loop c tc target_delay_samples stp.1 ml mr rest
    (tail.1, (stp.2.1, stp.2.2) :: tail.2.1, tail.2.2)

/-- The raw target delay length of `process`: tempo-synced
(`secondsPerBeat × multiplier × sampleRate`, BPM defaulting to 120) or
free-running (`ms / 1000 × sampleRate`). -/
noncomputable def raw_target_delay (c : BlockCfg) : ℝ :=
  if c.time_sync then
    let bpm := c.bpm.getD 120.0
    let seconds_per_beat := 60.0 / bpm
    let normalized := (c.delay_time_ms - 1.0) / (1500.0 - 1.0)
    seconds_per_beat * (get_beat_info normalized).1 * (c.sample_rate : ℝ)
  else c.delay_time_ms / 1000.0 * (c.sample_rate : ℝ)

/-- The `process` function of `lib.rs` over one block: mode-transition
edge detection and buffer clearing, the mode tracker update, then either
the distortion branch or the delay branch (with its zero-length-buffer
early return), and finally the peak-meter update.  Returns the new state
and the per-sample stereo outputs. -/
noncomputable def process_block (st0 : DspState) (c : BlockCfg)
    (inputs : List SampleIn) : DspState × List (ℝ × ℝ) :=
  let st1 :=
    if st0.was_distortion_mode && !c.is_distortion then
      { st0 with
          delay_buffer_l := List.replicate st0.delay_buffer_l.length 0
          delay_buffer_r := List.replicate st0.delay_buffer_r.length 0 }
    else st0
  let st2 := { st1 with was_distortion_mode := c.is_distortion }
  let tc := calculate_tape_constants c.sample_rate c.is_broken
  if c.is_distortion then
    let lp := distortion_loop c tc st2 0 0 inputs
    let pk := update_peak_meters c.editor_open inputs.length
      lp.1.meter_decay_per_sample lp.1.peak_meter_l lp.1.peak_meter_r
      lp.2.2.1 lp.2.2.2
    ({ lp.1 with peak_meter_l := pk.1, peak_meter_r := pk.2 }, lp.2.1)
  else
    let buffer_len := st2.delay_buffer_l.length
    let max_safe_samples := (buffer_len : ℝ) - 100.0
    let target_delay_samples := min (raw_target_delay c) max_safe_samples
    if buffer_len = 0 then (st2, inputs.map fun i => (i.in_l, i.in_r))
    else
      let lp := delay_loop c tc target_delay_samples st2 0 0 inputs
      let pk := update_peak_meters c.editor_open inputs.length
        lp.1.meter_decay_per_sample lp.1.peak_meter_l lp.1.peak_meter_r
        lp.2.2.1 lp.2.2.2
      ({ lp.1 with peak_meter_l := pk.1, peak_meter_r := pk.2 }, lp.2.1)

/-! ## Helper lemmas -/

lemma interp_index_a_lt (buffer : List ℚ) (read_pos : ℚ)
    (h : 2 ≤ buffer.length) : interp_index_a buffer read_pos < buffer.length :=
  Nat.mod_lt _ (by omega)

lemma interp_index_b_lt (buffer : List ℚ) (read_pos : ℚ)
    (h : 2 ≤ buffer.length) : interp_index_b buffer read_pos < buffer.length :=
  Nat.mod_lt _ (by omega)

lemma linear_interpolate_eq (buffer : List ℚ) (read_pos : ℚ)
    (h : 2 ≤ buffer.length) :
    linear_interpolate buffer read_pos =
      buffer.getD (interp_index_a buffer read_pos) 0 * (1 - Int.fract read_pos)
      + buffer.getD (interp_index_b buffer read_pos) 0 * Int.fract read_pos := by
  unfold linear_interpolate
  rw [if_neg (by omega), if_neg (by omega)]
  rfl

/-! ## Claims -/

/-- C4: the tempo-sync quantizer computes
`index = clamp(floor(normalized × 18), 0, 17)` over the fixed 18-entry
table; normalized 0.0 yields multiplier 0.0625 "1/64", normalized 1.0
yields 8.0 "2 Bar", and the sweep `i/17` for `i = 0 .. 17` hits all 18
entries in order (the table's multipliers are strictly increasing, so the
entries are pairwise distinct). -/
theorem C4_tempo_sync_quantizer :
    (∀ q : ℚ, normalized_to_sync_step q = min (max (⌊q * 18⌋) 0) 17) ∧
    get_beat_info (0 : ℚ) = (0.0625, "1/64") ∧
    get_beat_info (1 : ℚ) = (8.0, "2 Bar") ∧
    (∀ i : Fin 18,
      normalized_to_sync_step ((i.val : ℚ) / 17) = (i.val : ℤ) ∧
      get_beat_info ((i.val : ℚ) / 17) =
        (syncTable (α := ℚ)).getD i.val (1.0, "1/4")) ∧
    List.Chain' (fun a b => a.1 < b.1) (syncTable (α := ℚ)) := by
  refine ⟨fun _ => rfl, ?_, ?_, ?_, ?_⟩
  · norm_num [get_beat_info, normalized_to_sync_step, syncTable]
  · norm_num [get_beat_info, normalized_to_sync_step, syncTable]
    rfl
  · intro i
    fin_cases i <;>
      norm_num [get_beat_info, normalized_to_sync_step, syncTable] <;> rfl
  · norm_num [syncTable, List.chain'_cons]

/-- C5: the peak-meter update equals the specified rule — skip when the
editor is closed, instant attack when the block maximum exceeds the
stored peak, decay by `decayPerSample ^ blockSampleCount` otherwise,
snapping below 0.001 to exactly 0, independently per channel. -/
theorem C5_peak_meter_update :
    ∀ (editor_open : Bool) (n : ℕ) (decay pl pr ml mr : ℚ),
      update_peak_meters editor_open n decay pl pr ml mr =
        if editor_open then
          (peak_update_spec pl ml decay n, peak_update_spec pr mr decay n)
        else (pl, pr) := by
  intro eo n decay pl pr ml mr
  cases eo with
  | false => simp [update_peak_meters]
  | true =>
    simp only [update_peak_meters, peak_update_spec, if_true,
      Bool.true_eq_false, if_false]
    by_cases hl : ml > pl <;> by_cases hr : mr > pr <;> simp [hl, hr]

/-- C6: the interpolated read is total: length 0 returns 0, length 1
returns the single stored sample, and for length ≥ 2 both accessed
indices are reduced modulo the length (hence in bounds — no
out-of-bounds access is reachable) and the result is the linear blend of
those two slots. -/
theorem C6_interpolated_read_total :
    (∀ read_pos : ℚ, linear_interpolate ([] : List ℚ) read_pos = 0) ∧
    (∀ (x read_pos : ℚ), linear_interpolate [x] read_pos = x) ∧
    (∀ (buffer : List ℚ) (read_pos : ℚ), 2 ≤ buffer.length →
      interp_index_a buffer read_pos < buffer.length ∧
      interp_index_b buffer read_pos < buffer.length ∧
      linear_interpolate buffer read_pos =
        buffer.getD (interp_index_a buffer read_pos) 0 * (1 - Int.fract read_pos)
        + buffer.getD (interp_index_b buffer read_pos) 0 * Int.fract read_pos) := by
  refine ⟨fun _ => rfl, fun _ _ => rfl, fun buffer read_pos h => ?_⟩
  exact ⟨interp_index_a_lt buffer read_pos h, interp_index_b_lt buffer read_pos h,
    linear_interpolate_eq buffer read_pos h⟩

/-- Witness for C6 at the concrete buffer `[1, 2]` and position `1/2`. -/
theorem C6_interpolated_read_total_witness :
    2 ≤ ([(1 : ℚ), 2]).length ∧
    (interp_index_a [(1 : ℚ), 2] (1 / 2) < ([(1 : ℚ), 2]).length ∧
     interp_index_b [(1 : ℚ), 2] (1 / 2) < ([(1 : ℚ), 2]).length ∧
     linear_interpolate [(1 : ℚ), 2] (1 / 2) =
       ([(1 : ℚ), 2]).getD (interp_index_a [(1 : ℚ), 2] (1 / 2)) 0
         * (1 - Int.fract ((1 : ℚ) / 2))
       + ([(1 : ℚ), 2]).getD (interp_index_b [(1 : ℚ), 2] (1 / 2)) 0
         * Int.fract ((1 : ℚ) / 2)) :=
  ⟨by norm_num, C6_interpolated_read_total.2.2 [(1 : ℚ), 2] (1 / 2) (by norm_num)⟩

/-- C7: for buffers of length ≥ 2 the interpolated read lies between the
two bracketing stored samples, and the fractional weight equals
`read_pos − ⌊read_pos⌋`. -/
theorem C7_interpolation_convex :
    ∀ (buffer : List ℚ) (read_pos : ℚ), 2 ≤ buffer.length →
      (min (buffer.getD (interp_index_a buffer read_pos) 0)
           (buffer.getD (interp_index_b buffer read_pos) 0)
         ≤ linear_interpolate buffer read_pos ∧
       linear_interpolate buffer read_pos
         ≤ max (buffer.getD (interp_index_a buffer read_pos) 0)
               (buffer.getD (interp_index_b buffer read_pos) 0)) ∧
      Int.fract read_pos = read_pos - ⌊read_pos⌋ := by
  intro buffer read_pos h
  have hf0 : 0 ≤ Int.fract read_pos := Int.fract_nonneg read_pos
  have hf1 : Int.fract read_pos ≤ 1 := (Int.fract_lt_one read_pos).le
  rw [linear_interpolate_eq buffer read_pos h]
  set a := buffer.getD (interp_index_a buffer read_pos) 0 with ha
  set b := buffer.getD (interp_index_b buffer read_pos) 0 with hb
  refine ⟨⟨?_, ?_⟩, rfl⟩
  · nlinarith [min_le_left a b, min_le_right a b]
  · nlinarith [le_max_left a b, le_max_right a b]

/-- Witness for C7 at the concrete buffer `[0, 1]` and position `1/2`. -/
theorem C7_interpolation_convex_witness :
    2 ≤ ([(0 : ℚ), 1]).length ∧
    ((min (([(0 : ℚ), 1]).getD (interp_index_a [(0 : ℚ), 1] (1 / 2)) 0)
          (([(0 : ℚ), 1]).getD (interp_index_b [(0 : ℚ), 1] (1 / 2)) 0)
        ≤ linear_interpolate [(0 : ℚ), 1] (1 / 2) ∧
      linear_interpolate [(0 : ℚ), 1] (1 / 2)
        ≤ max (([(0 : ℚ), 1]).getD (interp_index_a [(0 : ℚ), 1] (1 / 2)) 0)
              (([(0 : ℚ), 1]).getD (interp_index_b [(0 : ℚ), 1] (1 / 2)) 0)) ∧
     Int.fract ((1 : ℚ) / 2) = (1 : ℚ) / 2 - ⌊(1 : ℚ) / 2⌋) :=
  ⟨by norm_num, C7_interpolation_convex [(0 : ℚ), 1] (1 / 2) (by norm_num)⟩

/-- C1 counterexample: at `gainAmt = 4` (inside `[1, 10]`) the makeup
gain produced by the single shared `calculate_gain_compensation` — the
function both the direct path and the delay path call — is `4^(-0.60)`,
which differs from the claimed delay-path value `4^(-0.35)`. -/
theorem C1_gain_compensation_counterexample :
    (calculate_gain_compensation 4 0.005 0.15 1 1).1 ≠ (4 : ℝ) ^ (-(0.35 : ℝ)) := by
  have hmk : (calculate_gain_compensation 4 0.005 0.15 1 1).1
      = (4 : ℝ) ^ (-(0.60 : ℝ)) := by
    show 1 / (4 : ℝ) ^ (0.60 : ℝ) = (4 : ℝ) ^ (-(0.60 : ℝ))
    rw [Real.rpow_neg (by norm_num : (0 : ℝ) ≤ 4), one_div]
  rw [hmk]
  exact ne_of_lt ((Real.rpow_lt_rpow_left_iff (by norm_num : (1 : ℝ) < 4)).mpr
    (by norm_num))

/-- C1 amended: for every `gainAmt ∈ [1, 10]` the makeup gain of the
shared gain-compensation helper (used by both the direct and the delay
path) is `gainAmt^(-0.60)`, and the noise and crackle base amounts are
divided by the compensation factor `gainAmt × makeupGain` before the
user volumes scale them. -/
theorem C1_gain_compensation (g na ca nv cv : ℝ)
    (h1 : 1 ≤ g) (h2 : g ≤ 10) :
    (calculate_gain_compensation g na ca nv cv).1 = g ^ (-(0.60 : ℝ)) ∧
    (calculate_gain_compensation g na ca nv cv).2.1 =
      na / (g * (calculate_gain_compensation g na ca nv cv).1) * nv ∧
    (calculate_gain_compensation g na ca nv cv).2.2 =
      ca / (g * (calculate_gain_compensation g na ca nv cv).1) * cv := by
  refine ⟨?_, rfl, rfl⟩
  show 1 / g ^ (0.60 : ℝ) = g ^ (-(0.60 : ℝ))
  rw [Real.rpow_neg (by linarith : (0 : ℝ) ≤ g), one_div]

/-- Witness for C1 at the concrete gain value 2. -/
theorem C1_gain_compensation_witness :
    ((1 : ℝ) ≤ 2 ∧ (2 : ℝ) ≤ 10) ∧
    ((calculate_gain_compensation 2 0.005 0.15 1 1).1 = (2 : ℝ) ^ (-(0.60 : ℝ)) ∧
     (calculate_gain_compensation 2 0.005 0.15 1 1).2.1 =
       0.005 / (2 * (calculate_gain_compensation 2 0.005 0.15 1 1).1) * 1 ∧
     (calculate_gain_compensation 2 0.005 0.15 1 1).2.2 =
       0.15 / (2 * (calculate_gain_compensation 2 0.005 0.15 1 1).1) * 1) :=
  ⟨⟨by norm_num, by norm_num⟩,
   C1_gain_compensation 2 0.005 0.15 1 1 (by norm_num) (by norm_num)⟩

/-- C2: in delay mode, per sample and per channel, the value stored at
the write cursor is
`softClip((input + onePoleLP(rawDelayed)×feedbackGain + noise + crackle)
× dropoutHealth, gainAmt)`, the output is
`input×(1−mix) + (rawDelayed×makeupGain)×mix`, and the feedback gain is
`feedback × 1.2 / sqrt(gainAmt)`. -/
theorem C2_delay_write_and_output :
    ∀ (c : BlockCfg) (tc : TapeConstants) (target_delay_samples : ℝ)
      (st : DspState) (inp : SampleIn),
      let buffer_len := st.delay_buffer_l.length
      let lfo := update_lfo_phase st.lfo_phase tc.flutter_rate
      let flutter_offset_l := Real.sin lfo * 15.0
      let flutter_offset_r := Real.sin (lfo + c.stereo_width * Real.pi) * 15.0
      let cds := st.current_delay_samples * (1 - 0.0005)
        + target_delay_samples * 0.0005
      let spread_samples := c.stereo_width * 0.010 * (c.sample_rate : ℝ)
      let mod_delay_samples_l := max (cds - spread_samples + flutter_offset_l) 0
      let mod_delay_samples_r := max (cds + spread_samples + flutter_offset_r) 0
      let feedback_gain := inp.feedback * 1.2 / Real.sqrt inp.gain
      let comp := calculate_gain_compensation inp.gain (tc.noise_amount : ℝ)
        (tc.crackle_amount : ℝ) inp.noiseP inp.crackleP
      let dr := update_dropout_smoother c.is_broken st.dropout_smoother
        st.dropout_timer st.rng_seed c.sample_rate
      let cutoff_l := max ((tc.current_tone_cutoff : ℝ) - c.stereo_width * 0.15) 0.1
      let cutoff_r := min ((tc.current_tone_cutoff : ℝ) + c.stereo_width * 0.15) 0.95
      let raw_delayed_l := linear_interpolate st.delay_buffer_l
        (remEuclid ((st.write_pos : ℝ) - mod_delay_samples_l) (buffer_len : ℝ))
      let raw_delayed_r := linear_interpolate st.delay_buffer_r
        (remEuclid ((st.write_pos : ℝ) - mod_delay_samples_r) (buffer_len : ℝ))
      let gl := generate_tape_noise_and_crackle dr.seed st.crackle_integrator_l
        st.crackle_hp_l tc.crackle_threshold comp.2.1 comp.2.2
      let gr := generate_tape_noise_and_crackle gl.seed st.crackle_integrator_r
        st.crackle_hp_r tc.crackle_threshold comp.2.1 comp.2.2
      (delay_sample_step c tc target_delay_samples st inp).1.delay_buffer_l =
        st.delay_buffer_l.set st.write_pos
          (soft_clip ((inp.in_l
              + one_pole_lp raw_delayed_l st.lp_state_l cutoff_l * feedback_gain
              + gl.noise + gl.crackle) * dr.vol_mod) inp.gain) ∧
      (delay_sample_step c tc target_delay_samples st inp).1.delay_buffer_r =
        st.delay_buffer_r.set st.write_pos
          (soft_clip ((inp.in_r
              + one_pole_lp raw_delayed_r st.lp_state_r cutoff_r * feedback_gain
              + gr.noise + gr.crackle) * dr.vol_mod) inp.gain) ∧
      (delay_sample_step c tc target_delay_samples st inp).2.1 =
        inp.in_l * (1 - inp.mix) + (raw_delayed_l * comp.1) * inp.mix ∧
      (delay_sample_step c tc target_delay_samples st inp).2.2 =
        inp.in_r * (1 - inp.mix) + (raw_delayed_r * comp.1) * inp.mix :=
  fun _ _ _ _ _ => ⟨rfl, rfl, rfl, rfl⟩

/-- C9 counterexample: the non-zero 32-bit seed 634785765 is mapped by
one LCG noise draw to the seed 0, so non-zeroness is not an invariant of
the seed stream. -/
theorem C9_seed_zero_counterexample :
    (634785765 : ℕ) ≠ 0 ∧ (get_noise 634785765).2 = 0 :=
  ⟨by norm_num, by norm_num [get_noise, lcg]⟩

/-- C9 amended: the seed is a 32-bit unsigned value: every noise draw
applies exactly `seed × 1664525 + 1013904223` with unsigned wraparound
and every crackle draw applies that step once or twice, keeping the seed
below `2^32`; non-zeroness, however, is not preserved (see the
counterexample). -/
theorem C9_seed_lcg_step :
    ∀ (s : ℕ) (th : ℚ),
      (get_noise s).2 = (s * 1664525 + 1013904223) % 4294967296 ∧
      (get_noise s).2 < 4294967296 ∧
      ((get_crackle s th).2 = lcg s ∨ (get_crackle s th).2 = lcg (lcg s)) ∧
      (get_crackle s th).2 < 4294967296 := by
  intro s th
  refine ⟨rfl, Nat.mod_lt _ (by norm_num), ?_, ?_⟩
  · unfold get_crackle
    dsimp only
    split
    · split <;> exact Or.inr rfl
    · exact Or.inl rfl
  · unfold get_crackle
    dsimp only
    split
    · split <;> exact Nat.mod_lt _ (by norm_num)
    · exact Nat.mod_lt _ (by norm_num)

/-- C8: the generators are deterministic — equal seeds and equal
thresholds give bit-identical outputs — and the draw order is fixed: a
triggered crackle draws its magnitude from `lcg s` and only then its
polarity from `lcg (lcg s)`, and in a delay-mode sample the final seed is
the right channel's generator applied to the left channel's output seed
(which itself follows the dropout draw), so all left-channel draws
precede all right-channel draws. -/
theorem C8_prng_determinism_and_order :
    (∀ s1 s2 : ℕ, s1 = s2 →
      get_noise s1 = get_noise s2 ∧
        ∀ th : ℚ, get_crackle s1 th = get_crackle s2 th) ∧
    (∀ (s : ℕ) (th : ℚ),
      (uniform01 (lcg s) > th →
        get_crackle s th =
          (if 2147483648 ≤ lcg (lcg s) then (0.2 : ℚ) else -0.2, lcg (lcg s))) ∧
      (¬ uniform01 (lcg s) > th → get_crackle s th = (0, lcg s))) ∧
    (∀ (c : BlockCfg) (tc : TapeConstants) (target_delay_samples : ℝ)
       (st : DspState) (inp : SampleIn),
      let comp := calculate_gain_compensation inp.gain (tc.noise_amount : ℝ)
        (tc.crackle_amount : ℝ) inp.noiseP inp.crackleP
      let s0 := (update_dropout_smoother c.is_broken st.dropout_smoother
        st.dropout_timer st.rng_seed c.sample_rate).seed
      (delay_sample_step c tc target_delay_samples st inp).1.rng_seed =
        (generate_tape_noise_and_crackle
          (generate_tape_noise_and_crackle s0 st.crackle_integrator_l
            st.crackle_hp_l tc.crackle_threshold comp.2.1 comp.2.2).seed
          st.crackle_integrator_r st.crackle_hp_r tc.crackle_threshold
          comp.2.1 comp.2.2).seed) := by
  refine ⟨?_, ?_, fun _ _ _ _ _ => rfl⟩
  · rintro s1 s2 rfl
    exact ⟨rfl, fun _ => rfl⟩
  · intro s th
    constructor
    · intro h
      unfold get_crackle
      dsimp only
      rw [if_pos h]
      split <;> rfl
    · intro h
      unfold get_crackle
      dsimp only
      rw [if_neg h]

/-- Witness for C8 at the concrete seed 12345 and threshold 0 (the
magnitude draw from seed 12345 maps above threshold 0, so the trigger
hypothesis holds). -/
theorem C8_prng_witness :
    uniform01 (lcg 12345) > (0 : ℚ) ∧
    get_noise 12345 = get_noise 12345 ∧
    get_crackle 12345 (0 : ℚ) =
      (if 2147483648 ≤ lcg (lcg 12345) then (0.2 : ℚ) else -0.2,
       lcg (lcg 12345)) := by
  have htrig : uniform01 (lcg 12345) > (0 : ℚ) := by
    norm_num [uniform01, lcg, U32_MAX]
  exact ⟨htrig, (C8_prng_determinism_and_order.1 12345 12345 rfl).1,
    (C8_prng_determinism_and_order.2.1 12345 0).1 htrig⟩

/-! ## Mode-transition and frame lemmas -/

lemma distortion_sample_step_frame (c : BlockCfg) (tc : TapeConstants)
    (st : DspState) (inp : SampleIn) :
    (distortion_sample_step c tc st inp).1.delay_buffer_l = st.delay_buffer_l ∧
    (distortion_sample_step c tc st inp).1.delay_buffer_r = st.delay_buffer_r ∧
    (distortion_sample_step c tc st inp).1.write_pos = st.write_pos ∧
    (distortion_sample_step c tc st inp).1.current_delay_samples
      = st.current_delay_samples ∧
    (distortion_sample_step c tc st inp).1.meter_decay_per_sample
      = st.meter_decay_per_sample ∧
    (distortion_sample_step c tc st inp).1.peak_meter_l = st.peak_meter_l ∧
    (distortion_sample_step c tc st inp).1.peak_meter_r = st.peak_meter_r ∧
    (distortion_sample_step c tc st inp).1.was_distortion_mode
      = st.was_distortion_mode :=
  ⟨rfl, rfl, rfl, rfl, rfl, rfl, rfl, rfl⟩

lemma distortion_loop_frame (c : BlockCfg) (tc : TapeConstants) :
    ∀ (inputs : List SampleIn) (st : DspState) (max_l max_r : ℝ),
      (distortion_loop c tc st max_l max_r inputs).1.delay_buffer_l
        = st.delay_buffer_l ∧
      (distortion_loop c tc st max_l max_r inputs).1.delay_buffer_r
        = st.delay_buffer_r ∧
      (distortion_loop c tc st max_l max_r inputs).1.write_pos = st.write_pos ∧
      (distortion_loop c tc st max_l max_r inputs).1.current_delay_samples
        = st.current_delay_samples ∧
      (distortion_loop c tc st max_l max_r inputs).1.meter_decay_per_sample
        = st.meter_decay_per_sample := by
  intro inputs
  induction inputs with
  | nil => exact fun st ml mr => ⟨rfl, rfl, rfl, rfl, rfl⟩
  | cons inp rest ih =>
    intro st ml mr
    have hstep := distortion_sample_step_frame c tc st inp
    have htail := ih (distortion_sample_step c tc st inp).1
      (if |(distortion_sample_step c tc st inp).2.1| > ml
        then |(distortion_sample_step c tc st inp).2.1| else ml)
      (if |(distortion_sample_step c tc st inp).2.2| > mr
        then |(distortion_sample_step c tc st inp).2.2| else mr)
    refine ⟨?_, ?_, ?_, ?_, ?_⟩ <;>
      simp only [distortion_loop] <;>
      [rw [htail.1, hstep.1]; rw [htail.2.1, hstep.2.1];
       rw [htail.2.2.1, hstep.2.2.1]; rw [htail.2.2.2.1, hstep.2.2.2.1];
       rw [htail.2.2.2.2, hstep.2.2.2.2.1]]

/-- C3: if the previous block ran in distortion-only mode and the current
block does not, `process` clears both delay buffers before any read: the
block's result is identical to running it from a state whose buffers are
entirely zero-filled, so no read of this block can return a sample
written before the transition. -/
theorem C3_mode_switch_clears_buffers
    (st : DspState) (c : BlockCfg) (inputs : List SampleIn)
    (hwas : st.was_distortion_mode = true) (hmode : c.is_distortion = false) :
    process_block st c inputs =
      process_block
        { st with
            delay_buffer_l := List.replicate st.delay_buffer_l.length 0
            delay_buffer_r := List.replicate st.delay_buffer_r.length 0 }
        c inputs := by
  unfold process_block
  simp only [hwas, hmode, Bool.not_false, Bool.and_self, if_true,
    List.length_replicate]

/-- Witness state for the C3 and C10 theorems: a concrete engine state
with non-zero buffers. -/
noncomputable def exState : DspState :=
  ⟨[1, 2], [3, 4], 1, 5, 0.5, 0, 0, 12345, 1, 0, 1, 0, 0, 0, 0, 0, 0, true⟩

/-- Witness block configuration with distortion mode off. -/
def exCfgDelay : BlockCfg := ⟨44100, 0, none, 200, false, false, false, false⟩

/-- Witness for C3 at a concrete state with non-empty buffers. -/
theorem C3_mode_switch_clears_buffers_witness :
    exState.was_distortion_mode = true ∧ exCfgDelay.is_distortion = false ∧
    process_block exState exCfgDelay [] =
      process_block
        { exState with
            delay_buffer_l := List.replicate exState.delay_buffer_l.length 0
            delay_buffer_r := List.replicate exState.delay_buffer_r.length 0 }
        exCfgDelay [] :=
  ⟨rfl, rfl, C3_mode_switch_clears_buffers exState exCfgDelay [] rfl rfl⟩

/-- Witness state for the C10 counterexample: a state that was *not* in
distortion mode on the previous block. -/
noncomputable def exStateEnter : DspState :=
  ⟨[1, 2], [3, 4], 1, 5, 0.5, 0, 0, 12345, 1, 0, 1, 0, 0, 0, 0, 0, 0, false⟩

/-- Witness block configuration with distortion mode on and the editor
closed. -/
def exCfgDistortion : BlockCfg := ⟨44100, 0, none, 200, false, false, true, false⟩

/-- C10 counterexample: a distortion-mode `process` call mutates the
previous-mode tracker `was_distortion_mode` (false → true on entering
the mode), a field outside the claim's list of mutable state. -/
theorem C10_mode_tracker_mutates :
    (process_block exStateEnter exCfgDistortion []).1.was_distortion_mode
      ≠ exStateEnter.was_distortion_mode := by
  intro hcontra
  have h1 : (process_block exStateEnter exCfgDistortion []).1.was_distortion_mode
      = true := rfl
  have h2 : exStateEnter.was_distortion_mode = false := rfl
  rw [h1, h2] at hcontra
  exact Bool.noConfusion hcontra

/-- C10 amended: in distortion-only mode `process` leaves the delay
buffers, the write cursor, the smoothed delay length and the meter decay
constant exactly unchanged; only the filter states, PRNG seed,
crackle-shaper states, dropout state, LFO phase, peak meters, and the
previous-mode tracker may be mutated. -/
theorem C10_distortion_frame (st : DspState) (c : BlockCfg)
    (inputs : List SampleIn) (hmode : c.is_distortion = true) :
    (process_block st c inputs).1.delay_buffer_l = st.delay_buffer_l ∧
    (process_block st c inputs).1.delay_buffer_r = st.delay_buffer_r ∧
    (process_block st c inputs).1.write_pos = st.write_pos ∧
    (process_block st c inputs).1.current_delay_samples
      = st.current_delay_samples ∧
    (process_block st c inputs).1.meter_decay_per_sample
      = st.meter_decay_per_sample := by
  have hloop := distortion_loop_frame c
    (calculate_tape_constants c.sample_rate c.is_broken) inputs
    { st with was_distortion_mode := true } 0 0
  unfold process_block
  simp only [hmode, Bool.not_true, Bool.and_false, Bool.false_eq_true,
    if_false, eq_self_iff_true, if_true]
  exact hloop

/-- Witness for C10's amended frame theorem at a concrete state. -/
theorem C10_distortion_frame_witness :
    exCfgDistortion.is_distortion = true ∧
    ((process_block exStateEnter exCfgDistortion []).1.delay_buffer_l
        = exStateEnter.delay_buffer_l ∧
     (process_block exStateEnter exCfgDistortion []).1.delay_buffer_r
        = exStateEnter.delay_buffer_r ∧
     (process_block exStateEnter exCfgDistortion []).1.write_pos
        = exStateEnter.write_pos ∧
     (process_block exStateEnter exCfgDistortion []).1.current_delay_samples
        = exStateEnter.current_delay_samples ∧
     (process_block exStateEnter exCfgDistortion []).1.meter_decay_per_sample
        = exStateEnter.meter_decay_per_sample) :=
  ⟨rfl, C10_distortion_frame exStateEnter exCfgDistortion [] rfl⟩

end TapeDelay
